import Mathlib

/-!
Shallow embedding of `video_converter.py` from plgonzalezrx8/CardinalVideoConverter.

External-world interactions (ffprobe, ffmpeg, the filesystem) are modelled as
explicit environment values describing what the external calls would return for
the file at hand; every function of the source becomes a pure Lean function of
that environment.  Durations (Python floats parsed from ffprobe's decimal
output) are modelled as rationals; widths, heights and bitrates (Python ints)
as naturals.  Python `int(x)` truncation of a nonnegative float product is
modelled by natural floor division, exact for the magnitudes real media files
produce (products far below 2^52, where the double-precision product and the
exact rational have the same integer part).
-/

/-- Outcome of the `subprocess.run(['ffmpeg', '-hide_banner', '-encoders'], ...)`
call inside `check_gpu_availability` (lines 27-32): the call either raises
(tool missing, spawn failure — caught by the bare `except`) or completes with
an exit code and captured stdout.  `subprocess.run` is invoked without
`check=True`, so a non-zero exit does not raise. -/
inductive GpuQueryOutcome where
  | raises : GpuQueryOutcome
  | completes (exitCode : Nat) (stdout : String) : GpuQueryOutcome
deriving DecidableEq

/-- Helper for substring search: does `p` occur at the head of `s`? -/
def startsWithChars : List Char → List Char → Bool
  | [], _ => true
  | _ :: _, [] => false
  | p :: ps, c :: cs => p == c && startsWithChars ps cs

/-- Helper for substring search: does `pat` occur anywhere in the second list? -/
def containsChars (pat : List Char) : List Char → Bool
  | [] => startsWithChars pat []
  | c :: cs => startsWithChars pat (c :: cs) || containsChars pat cs

/-- Python's `pat in hay` on strings: substring containment. -/
def strContainsSub (hay pat : String) : Bool :=
  containsChars pat.data hay.data

/-- Lines 27-32: `check_gpu_availability` returns whether `'hevc_nvenc'` occurs
in the captured stdout; a bare `except` turns any exception into `False`.  The
exit code of the completed subprocess is never consulted. -/
def check_gpu_availability : GpuQueryOutcome → Bool
  | .raises => false
  | .completes _ out => strContainsSub out "hevc_nvenc"

/-- One entry of the ffprobe `streams` array as `get_video_info` reads it
(lines 39-44).  A field is `none` when the key is absent from the JSON object,
in which case the Python subscript raises `KeyError` (caught at line 45). -/
structure StreamData where
  codecType : String
  width : Option Nat
  height : Option Nat
  codecName : Option String
deriving DecidableEq

/-- Outcome of the ffprobe stream probe in `get_video_info` (lines 34-47):
either the subprocess/JSON layer fails (`CalledProcessError`,
`JSONDecodeError` — caught) or a parsed list of stream records is available. -/
inductive ProbeResult where
  | probeError : ProbeResult
  | ok (streams : List StreamData) : ProbeResult
deriving DecidableEq

/-- Lines 34-47: `get_video_info` picks the first stream with
`codec_type == 'video'` and returns `(width, height, codec_name)`; on any
caught error, or when no video stream exists, or when a needed key is missing
(`KeyError` discards the partially read values), it returns `(None, None, None)`. -/
def get_video_info : ProbeResult → Option Nat × Option Nat × Option String
  | .probeError => (none, none, none)
  | .ok streams =>
    match streams.find? (fun s => s.codecType == "video") with
    | none => (none, none, none)
    | some s =>
      match s.width, s.height, s.codecName with
      | some w, some h, some c => (some w, some h, some c)
      | _, _, _ => (none, none, none)

/-- Python's `codec.lower()`: per-character lowercasing (codec names emitted by
ffprobe are ASCII, where Python and `Char.toLower` agree). -/
def lowerString (s : String) : String := String.mk (s.data.map Char.toLower)

/-- The accepted H.265 codec aliases of line 103. -/
def acceptedCodecs : List String := ["hevc", "h265", "x265"]

/-- Lines 96-105 of `process_video`: two independent `if` statements set the
`needs_conversion` flag and append to the `conversion_reason` list; neither
check is skipped when the other already fired. -/
def needsConversionCheck (width height : Nat) (codec : String) : Bool × List String :=
  let acc0 : Bool × List String := (false, [])
  let acc1 : Bool × List String :=
    if 1920 < width ∨ 1080 < height then (true, acc0.2 ++ ["resolution above 1080p"])
    else acc0
  let acc2 : Bool × List String :=
    if lowerString codec ∉ acceptedCodecs then
      (true, acc1.2 ++ ["codec is " ++ codec ++ " (not H.265)"])
    else acc1
  acc2

/-- The value bound to Python's `target_bitrate` variable (lines 52-59): either
the decimal string `str(int(original_bitrate * 0.9))`, carried here as its
numeric value, or the literal string `"2M"` fallback. -/
inductive TargetBitrate where
  | num (n : Nat) : TargetBitrate
  | fallback2M : TargetBitrate
deriving DecidableEq

/-- Python `int(target_bitrate)` as evaluated at lines 77-78: parsing the
decimal string succeeds; parsing `"2M"` raises `ValueError` (the `M` suffix is
not valid for `int`), modelled as `none`. -/
def TargetBitrate.pyInt : TargetBitrate → Option Nat
  | .num n => some n
  | .fallback2M => none

/-- How ffmpeg reads a `-b:v` argument: a plain decimal is bits per second and
the suffix `M` multiplies by 10^6, so `"2M"` denotes 2,000,000 bps. -/
def TargetBitrate.bps : TargetBitrate → Nat
  | .num n => n
  | .fallback2M => 2000000

/-- Lines 52-59: `target_bitrate` selection — `int(original_bitrate * 0.9)`
(truncation, i.e. floor of the nonnegative product) when the bitrate probe
succeeded, the `"2M"` fallback when it failed. -/
def targetBitrateOf : Option Nat → TargetBitrate
  | none => .fallback2M
  | some b => .num (9 * b / 10)

/-- The encoder parameters that lines 49-82 derive before invoking ffmpeg:
codec / preset / quality factor from the hardware flag (lines 61-68), the
rate-control trio (lines 52-59, 77-78) and the fixed `scale=1920:1080` filter
from the default `target_resolution` (lines 49, 75).  `maxrate` / `bufsize`
hold `int(int(target_bitrate) * 1.5)` and `int(int(target_bitrate) * 2)`;
they are `none` when `int(target_bitrate)` raises (the `"2M"` fallback). -/
structure EncodingPlan where
  targetCodec : String
  preset : String
  crf : String
  targetBitrate : TargetBitrate
  maxrate : Option Nat
  bufsize : Option Nat
  scaleW : Nat
  scaleH : Nat
deriving DecidableEq

/-- Lines 49-82 of `convert_video`: the full plan as a function of the probed
bitrate and the answer of the hardware-capability check. -/
def buildPlan (bitrate : Option Nat) (gpuAvailable : Bool) : EncodingPlan :=
  let tb := targetBitrateOf bitrate
  { targetCodec := if gpuAvailable then "hevc_nvenc" else "libx265"
    preset := if gpuAvailable then "p5" else "slower"
    crf := if gpuAvailable then "28" else "23"
    targetBitrate := tb
    maxrate := tb.pyInt.map (fun t => 3 * t / 2)
    bufsize := tb.pyInt.map (fun t => 2 * t)
    scaleW := 1920
    scaleH := 1080 }

/-- How a call to `convert_video` (lines 49-88) ends:
`crashedValueError` — building the command list evaluated `int("2M")` at line
77 and the uncaught `ValueError` escaped the function (the `except` clause only
catches `CalledProcessError`), before ffmpeg was invoked;
`encodeFailed` — ffmpeg exited non-zero, the `CalledProcessError` was caught
and the failure reported (lines 87-88);
`encoded` — ffmpeg succeeded (line 85). -/
inductive ConvertOutcome where
  | crashedValueError : ConvertOutcome
  | encodeFailed : ConvertOutcome
  | encoded : ConvertOutcome
deriving DecidableEq

/-- Lines 49-88: `convert_video` with the external outcomes supplied by the
environment: the probed bitrate, the result of the capability query made
inside the function (line 50, `use_gpu` defaults to `True`), and whether the
ffmpeg invocation would exit zero. -/
def convert_video (bitrate : Option Nat) (gpu : GpuQueryOutcome)
    (encodeSucceeds : Bool) : ConvertOutcome :=
  let plan := buildPlan bitrate (check_gpu_availability gpu)
  match plan.maxrate with
  | none => .crashedValueError
  | some _ => if encodeSucceeds then .encoded else .encodeFailed

/-- The four possible judgments of the output-integrity check of
`process_video` (lines 113-132). -/
inductive ValidationVerdict where
  | SafeToDelete : ValidationVerdict
  | DurationMismatch : ValidationVerdict
  | Inconclusive : ValidationVerdict
  | OutputMissing : ValidationVerdict
deriving DecidableEq

/-- Lines 113-132: the decision taken after `convert_video` returns —
existence of the output file first, then availability of both durations, then
the strict 5-second tolerance on their absolute difference. -/
def validateOutput (outputExists : Bool) (inDur outDur : Option ℚ) : ValidationVerdict :=
  if outputExists then
    match inDur, outDur with
    | some i, some o => if |i - o| < 5 then .SafeToDelete else .DurationMismatch
    | _, _ => .Inconclusive
  else .OutputMissing

/-- Everything the external world decides during one `process_video` call:
the stream probe, the bitrate probe, the capability query, the ffmpeg exit
status, the existence of the output file afterwards, and the two duration
probes of the validation phase. -/
structure FileEnv where
  info : ProbeResult
  bitrate : Option Nat
  gpu : GpuQueryOutcome
  encodeSucceeds : Bool
  outputExistsAfter : Bool
  inputDuration : Option ℚ
  outputDuration : Option ℚ

/-- The observable effects of one `process_video` call (lines 90-134).
`inputRemoved` records whether `os.remove(input_file)` executed;
`printedDeleted` whether the `"Original file deleted"` message of line 124 was
printed; `ffmpegInvoked` whether the encoder subprocess was started;
`validationRan` whether the post-conversion check of lines 113-132 executed;
`crashed` whether an uncaught exception escaped `process_video`. -/
structure ProcessResult where
  skipped : Bool := false
  compliant : Bool := false
  crashed : Bool := false
  ffmpegInvoked : Bool := false
  encodeFailureReported : Bool := false
  validationRan : Bool := false
  verdict : Option ValidationVerdict := none
  printedDeleted : Bool := false
  inputRemoved : Bool := false
deriving DecidableEq

/-- Lines 90-134: `process_video`.  Note that after `convert_video` returns
normally — whether or not the encode itself failed — execution falls through to
the validation phase, and that the deletion branch (lines 122-126) prints the
message of line 124 while `os.remove(input_file)` at line 123 is commented
out, so no path sets `inputRemoved`. -/
def process_video (env : FileEnv) : ProcessResult :=
  match get_video_info env.info with
  | (some w, some h, some c) =>
    if (needsConversionCheck w h c).1 then
      match convert_video env.bitrate env.gpu env.encodeSucceeds with
      | .crashedValueError => { crashed := true }
      | co =>
        let v := validateOutput env.outputExistsAfter env.inputDuration env.outputDuration
        { ffmpegInvoked := true
          encodeFailureReported := decide (co = ConvertOutcome.encodeFailed)
          validationRan := true
          verdict := some v
          printedDeleted := decide (v = ValidationVerdict.SafeToDelete)
          inputRemoved := false }
    else { compliant := true }
  | _ => { skipped := true }

/-- The plan `convert_video` derives for a given per-file environment. -/
def planOfEnv (env : FileEnv) : EncodingPlan :=
  buildPlan env.bitrate (check_gpu_availability env.gpu)

/-- The target bitrate as the specification words it: `round(0.9 × bitrate)`. -/
def specRoundTarget (b : Nat) : ℤ := round ((0.9 : ℚ) * b)

/-- A 3840×2160 h264 video stream record, used as a concrete probe result. -/
def streamUHD : StreamData :=
  { codecType := "video", width := some 3840, height := some 2160,
    codecName := some "h264" }

/-- Environment of a run whose conversion succeeds and whose output passes the
duration check: input 100.0 s, output 103.0 s. -/
def envSafeDelete : FileEnv :=
  { info := ProbeResult.ok [streamUHD], bitrate := some 5000000,
    gpu := GpuQueryOutcome.completes 0 "", encodeSucceeds := true,
    outputExistsAfter := true, inputDuration := some 100,
    outputDuration := some 103 }

/-- Environment of a run whose ffmpeg invocation exits non-zero and produces
no output file. -/
def envEncodeFailed : FileEnv :=
  { info := ProbeResult.ok [streamUHD], bitrate := some 5000000,
    gpu := GpuQueryOutcome.completes 0 "", encodeSucceeds := false,
    outputExistsAfter := false, inputDuration := none, outputDuration := none }

/-- Environment of a run whose stream probe fails outright. -/
def envUnusable : FileEnv :=
  { info := ProbeResult.probeError, bitrate := none, gpu := GpuQueryOutcome.raises,
    encodeSucceeds := false, outputExistsAfter := false,
    inputDuration := none, outputDuration := none }

/-- Environment identical to `envSafeDelete` in bitrate and in the answer of
the capability check, but differing in every other external fact. -/
def envOtherWorld : FileEnv :=
  { info := ProbeResult.probeError, bitrate := some 5000000,
    gpu := GpuQueryOutcome.raises, encodeSucceeds := false,
    outputExistsAfter := false, inputDuration := some 7,
    outputDuration := none }

/-- Helper: the duration pair 100.0 s vs 103.0 s passes the strict 5-second
tolerance, so the verdict is SafeToDelete. -/
theorem validate_100_103 :
    validateOutput true (some 100) (some 103) = ValidationVerdict.SafeToDelete := by
  have h : |(100 : ℚ) - 103| < 5 := by rw [abs_sub_lt_iff]; constructor <;> norm_num
  simp [validateOutput, h]

/-- Helper: the duration pair 100.0 s vs 110.0 s fails the tolerance, so the
verdict is DurationMismatch. -/
theorem validate_100_110 :
    validateOutput true (some 100) (some 110) = ValidationVerdict.DurationMismatch := by
  have h : ¬ |(100 : ℚ) - 110| < 5 := by
    rw [abs_sub_lt_iff]
    intro hcon
    have h2 := hcon.2
    norm_num at h2
  simp [validateOutput, h]

/-- Helper: `get_video_info` returns either the all-absent triple or an
all-present triple — no mixed shape exists. -/
theorem get_video_info_shape (p : ProbeResult) :
    get_video_info p = (none, none, none)
      ∨ ∃ w h c, get_video_info p = (some w, some h, some c) := by
  cases p with
  | probeError => exact Or.inl rfl
  | ok streams =>
    simp only [get_video_info]
    cases hf : streams.find? (fun s => s.codecType == "video") with
    | none => exact Or.inl rfl
    | some s =>
      obtain ⟨ct, sw, sh, sc⟩ := s
      cases sw <;> cases sh <;> cases sc <;>
        first
          | exact Or.inl rfl
          | exact Or.inr ⟨_, _, _, rfl⟩

/-- Helper: a verdict equals SafeToDelete exactly when its `some` wrapping
equals `some SafeToDelete`. -/
theorem decide_some_verdict (v : ValidationVerdict) :
    decide (v = ValidationVerdict.SafeToDelete)
      = decide (some v = some ValidationVerdict.SafeToDelete) := by
  cases v <;> rfl

/-- Helper: the normal form of `process_video` on the conversion branch, when
the stream probe yielded a full triple, conversion is needed and building the
ffmpeg command did not raise: the validation phase runs on the outcome of the
external probes, the deletion message tracks the SafeToDelete verdict, and
`os.remove` never executes. -/
theorem process_video_convert_eq (env : FileEnv) (w h : Nat) (c : String)
    (hinfo : get_video_info env.info = (some w, some h, some c))
    (hneeds : (needsConversionCheck w h c).1 = true)
    (hok : convert_video env.bitrate env.gpu env.encodeSucceeds
      ≠ ConvertOutcome.crashedValueError) :
    process_video env =
      { ffmpegInvoked := true
        encodeFailureReported :=
          decide (convert_video env.bitrate env.gpu env.encodeSucceeds
            = ConvertOutcome.encodeFailed)
        validationRan := true
        verdict := some (validateOutput env.outputExistsAfter env.inputDuration
          env.outputDuration)
        printedDeleted :=
          decide (validateOutput env.outputExistsAfter env.inputDuration
            env.outputDuration = ValidationVerdict.SafeToDelete)
        inputRemoved := false } := by
  cases hco : convert_video env.bitrate env.gpu env.encodeSucceeds with
  | crashedValueError => exact absurd hco hok
  | encodeFailed => simp [process_video, hinfo, hneeds, hco]
  | encoded => simp [process_video, hinfo, hneeds, hco]

/-- C1 (code-bug evidence): the claim says the original file is deleted
exactly on the SafeToDelete verdict, but on a run that reaches SafeToDelete
(3840×2160 h264 input, successful encode, output present, durations 100.0 s
vs 103.0 s) `process_video` leaves the input in place — `os.remove` at line
123 is commented out — while still printing the line-124 deletion message. -/
theorem claim_C1_no_delete_on_safe :
    (process_video envSafeDelete).verdict = some ValidationVerdict.SafeToDelete
    ∧ (process_video envSafeDelete).printedDeleted = true
    ∧ (process_video envSafeDelete).inputRemoved = false := by
  have heq := process_video_convert_eq envSafeDelete 3840 2160 "h264"
    (by decide) (by decide) (by decide)
  have hval : validateOutput envSafeDelete.outputExistsAfter envSafeDelete.inputDuration
      envSafeDelete.outputDuration = ValidationVerdict.SafeToDelete := validate_100_103
  rw [heq, hval]
  simp

/-- C2: for every descriptor with all stream fields known, `needs_conversion`
is true exactly when width > 1920 or height > 1080 or the lowercased codec is
not an accepted H.265 alias, and the reasons list holds exactly one entry per
violated condition — the resolution entry whenever the resolution condition
holds and the codec entry whenever the codec condition holds, both present
when both hold. -/
theorem claim_C2_needs_conversion (w h : Nat) (c : String) :
    ((needsConversionCheck w h c).1 = true ↔
      1920 < w ∨ 1080 < h ∨ lowerString c ∉ acceptedCodecs)
    ∧ (needsConversionCheck w h c).2
        = (if 1920 < w ∨ 1080 < h then ["resolution above 1080p"] else [])
          ++ (if lowerString c ∉ acceptedCodecs then
                ["codec is " ++ c ++ " (not H.265)"] else []) := by
  by_cases hr : 1920 < w ∨ 1080 < h <;> by_cases hc : lowerString c ∉ acceptedCodecs <;>
    simp [needsConversionCheck, hr, hc]

/-- C3 counterexample: at a probed bitrate of 1 bps the code computes
`int(1 * 0.9) = 0` for the target bitrate while `round(0.9 × 1) = 1`, so the
claimed rounding equality fails and the target is not positive. -/
theorem claim_C3_counterexample :
    (buildPlan (some 1) true).targetBitrate = TargetBitrate.num 0
    ∧ specRoundTarget 1 = 1
    ∧ (buildPlan (some 1) true).targetBitrate
        ≠ TargetBitrate.num (specRoundTarget 1).toNat
    ∧ ¬ 0 < ((buildPlan (some 1) true).targetBitrate).bps := by
  have h1 : specRoundTarget 1 = 1 := by norm_num [specRoundTarget, round_eq]
  refine ⟨rfl, h1, ?_, by decide⟩
  rw [h1]
  decide

/-- C3 (amended): the target bitrate is the truncation ⌊0.9 × bitrate⌋ when
the bitrate probe succeeds and the "2M" fallback (2,000,000 bps as ffmpeg
reads it) when it fails; it is always set, and it is positive whenever the
probed bitrate is at least 2 bps. -/
theorem claim_C3_amended (b : Nat) (g : Bool) :
    (buildPlan (some b) g).targetBitrate = TargetBitrate.num (9 * b / 10)
    ∧ 9 * b / 10 = ⌊(0.9 : ℚ) * b⌋₊
    ∧ (buildPlan none g).targetBitrate = TargetBitrate.fallback2M
    ∧ TargetBitrate.bps TargetBitrate.fallback2M = 2000000
    ∧ (2 ≤ b → 0 < 9 * b / 10) := by
  refine ⟨rfl, ?_, rfl, rfl, fun hb => Nat.div_pos (by omega) (by norm_num)⟩
  have h09 : (0.9 : ℚ) * b = ((9 * b : ℕ) : ℚ) / ((10 : ℕ) : ℚ) := by
    rw [show (0.9 : ℚ) = 9 / 10 from by norm_num]
    push_cast
    ring
  rw [h09, Nat.floor_div_nat, Nat.floor_natCast]

/-- C3 witness: at the spec's own scenario bitrate of 5,000,000 bps the target
is 4,500,000 and positive. -/
theorem claim_C3_amended_witness :
    (buildPlan (some 5000000) false).targetBitrate = TargetBitrate.num 4500000
    ∧ 0 < 9 * 5000000 / 10 := by
  have h := claim_C3_amended 5000000 false
  exact ⟨h.1.trans (by decide), h.2.2.2.2 (by norm_num)⟩

/-- C4 (code-bug evidence): in the unknown-bitrate fallback the maxrate and
bufsize computations do not happen — `int("2M")` raises an uncaught
`ValueError` and `convert_video` aborts before invoking ffmpeg — contradicting
the claim that they are computed without error for every plan.  Moreover even
for a known bitrate the code truncates: target 9 gives maxrate
`int(9 * 1.5) = 13`, where rounding would give 14. -/
theorem claim_C4_fallback_crash :
    (buildPlan none false).maxrate = none
    ∧ (buildPlan none false).bufsize = none
    ∧ convert_video none (GpuQueryOutcome.completes 0 "") true
        = ConvertOutcome.crashedValueError
    ∧ (buildPlan (some 10) false).maxrate = some 13
    ∧ round ((3 : ℚ) / 2 * 9) = 14 := by
  refine ⟨rfl, rfl, rfl, by decide, by norm_num [round_eq]⟩

/-- C5: the validator decides in the claimed order — missing output gives
OutputMissing; otherwise a missing duration gives Inconclusive; otherwise an
absolute difference strictly below 5 seconds gives SafeToDelete and anything
else DurationMismatch — and 100.0 vs 103.0 yields SafeToDelete while 100.0 vs
110.0 yields DurationMismatch. -/
theorem claim_C5_validator (ex : Bool) (i o : Option ℚ) :
    (ex = false → validateOutput ex i o = ValidationVerdict.OutputMissing)
    ∧ (ex = true → i = none ∨ o = none →
        validateOutput ex i o = ValidationVerdict.Inconclusive)
    ∧ (∀ a b : ℚ, ex = true → i = some a → o = some b →
        ((|a - b| < 5 → validateOutput ex i o = ValidationVerdict.SafeToDelete)
          ∧ (¬ |a - b| < 5 → validateOutput ex i o = ValidationVerdict.DurationMismatch)))
    ∧ validateOutput true (some 100) (some 103) = ValidationVerdict.SafeToDelete
    ∧ validateOutput true (some 100) (some 110) = ValidationVerdict.DurationMismatch := by
  refine ⟨?_, ?_, ?_, validate_100_103, validate_100_110⟩
  · rintro rfl; rfl
  · rintro rfl (rfl | rfl)
    · cases o <;> rfl
    · cases i <;> rfl
  · rintro a b rfl rfl rfl
    constructor
    · intro hlt; simp [validateOutput, hlt]
    · intro hge; simp [validateOutput, hge]

/-- C5 witness: the two scenario instances of the validator theorem, with the
5-second tolerance discharged on the concrete rationals. -/
theorem claim_C5_witness :
    validateOutput true (some 100) (some 103) = ValidationVerdict.SafeToDelete
    ∧ validateOutput true (some 100) (some 110) = ValidationVerdict.DurationMismatch := by
  have h := claim_C5_validator true (some (100 : ℚ)) (some 103)
  have h2 := claim_C5_validator true (some (100 : ℚ)) (some 110)
  refine ⟨(h.2.2.1 100 103 rfl rfl rfl).1 ?_, (h2.2.2.1 100 110 rfl rfl rfl).2 ?_⟩
  · rw [abs_sub_lt_iff]; constructor <;> norm_num
  · rw [abs_sub_lt_iff]; intro hcon; have h3 := hcon.2; norm_num at h3

/-- C6 counterexample: after a failed encode (exit non-zero, no output file)
the failure is reported, yet the validation/deletion phase still runs for that
file — `process_video` performs the output-existence check and reaches the
OutputMissing verdict — contradicting the claim that processing ends at the
encode failure and skips the validation phase. -/
theorem claim_C6_counterexample :
    (process_video envEncodeFailed).encodeFailureReported = true
    ∧ (process_video envEncodeFailed).validationRan = true
    ∧ (process_video envEncodeFailed).verdict = some ValidationVerdict.OutputMissing := by
  have heq := process_video_convert_eq envEncodeFailed 3840 2160 "h264"
    (by decide) (by decide) (by decide)
  rw [heq]
  refine ⟨by decide, rfl, rfl⟩

/-- C6 (amended): when the encoder exits non-zero on a convertible file with a
known bitrate, the failure is reported, no exception escapes (the scan can
continue), and the original input is never removed — but the
validation/deletion phase still runs for the failed file. -/
theorem claim_C6_amended (env : FileEnv) (w h : Nat) (c : String)
    (hinfo : get_video_info env.info = (some w, some h, some c))
    (hneeds : (needsConversionCheck w h c).1 = true)
    (hbit : ∃ b, env.bitrate = some b)
    (henc : env.encodeSucceeds = false) :
    (process_video env).crashed = false
    ∧ (process_video env).encodeFailureReported = true
    ∧ (process_video env).inputRemoved = false
    ∧ (process_video env).validationRan = true := by
  obtain ⟨b, hb⟩ := hbit
  have hconv : convert_video env.bitrate env.gpu env.encodeSucceeds
      = ConvertOutcome.encodeFailed := by
    rw [hb, henc]
    simp [convert_video, buildPlan, targetBitrateOf, TargetBitrate.pyInt]
  have heq := process_video_convert_eq env w h c hinfo hneeds (by rw [hconv]; simp)
  rw [heq, hconv]
  simp

/-- C6 witness: the amended statement instantiated at the concrete
failed-encode environment. -/
theorem claim_C6_amended_witness :
    (process_video envEncodeFailed).crashed = false
    ∧ (process_video envEncodeFailed).encodeFailureReported = true
    ∧ (process_video envEncodeFailed).inputRemoved = false
    ∧ (process_video envEncodeFailed).validationRan = true :=
  claim_C6_amended envEncodeFailed 3840 2160 "h264" (by decide) (by decide)
    ⟨5000000, rfl⟩ rfl

/-- C7: the stream descriptor is all-or-nothing — `get_video_info` yields
either a fully absent or a fully present triple — and whenever any component
is missing, `process_video` skips the file before any planning, conversion or
validation happens. -/
theorem claim_C7_all_or_nothing (p : ProbeResult) (env : FileEnv) :
    (get_video_info p = (none, none, none)
      ∨ ∃ w h c, get_video_info p = (some w, some h, some c))
    ∧ (((get_video_info env.info).1 = none ∨ (get_video_info env.info).2.1 = none
          ∨ (get_video_info env.info).2.2 = none) →
        process_video env = { skipped := true }) := by
  refine ⟨get_video_info_shape p, fun hmiss => ?_⟩
  rcases get_video_info_shape env.info with hnone | ⟨w, h, c, hsome⟩
  · simp [process_video, hnone]
  · rw [hsome] at hmiss
    rcases hmiss with h1 | h1 | h1 <;> simp at h1

/-- C7 witness: a failing stream probe leads to the pure skip outcome. -/
theorem claim_C7_witness :
    process_video envUnusable = { skipped := true } :=
  (claim_C7_all_or_nothing ProbeResult.probeError envUnusable).2 (Or.inl rfl)

/-- C8 counterexample: the capability check never consults the exit code, so a
query that exits non-zero but still printed the encoder list yields true — the
claim that every failing outcome (including a non-zero exit) yields false does
not hold of the code. -/
theorem claim_C8_counterexample :
    check_gpu_availability (GpuQueryOutcome.completes 1 "hevc_nvenc") = true := by
  decide

/-- C8 (amended): the capability check always returns a boolean and lets no
exception propagate — an exception in the query yields false, and for a
completed query the answer is the substring test on the captured stdout,
independent of the exit code, so a completed query with empty output yields
false. -/
theorem claim_C8_amended (q : GpuQueryOutcome) (n m : Nat) (s : String) :
    (q = GpuQueryOutcome.raises → check_gpu_availability q = false)
    ∧ check_gpu_availability (GpuQueryOutcome.completes n s)
        = check_gpu_availability (GpuQueryOutcome.completes m s)
    ∧ check_gpu_availability (GpuQueryOutcome.completes n "") = false := by
  refine ⟨fun hq => by subst hq; rfl, rfl, rfl⟩

/-- C8 witness: a raising query — the tool being missing — yields false. -/
theorem claim_C8_witness : check_gpu_availability GpuQueryOutcome.raises = false :=
  (claim_C8_amended GpuQueryOutcome.raises 0 0 "").1 rfl

/-- C9: plan construction is deterministic and depends on nothing but the
probed bitrate and the answer of the hardware-capability check — two per-file
environments agreeing on those two inputs derive the identical plan (codec,
preset, quality factor, target bitrate, maxrate, bufsize and scaling target),
however much every other external fact differs.  In the embedding the
derivation is a pure function, reflecting that it performs no I/O of its
own beyond the two supplied answers. -/
theorem claim_C9_plan_deterministic (e1 e2 : FileEnv)
    (hb : e1.bitrate = e2.bitrate)
    (hg : check_gpu_availability e1.gpu = check_gpu_availability e2.gpu) :
    planOfEnv e1 = planOfEnv e2 := by
  unfold planOfEnv
  rw [hb, hg]

/-- C9 witness: two environments differing in probe result, durations, encode
outcome and even the shape of the capability answer, but agreeing on bitrate
and on the availability flag, get the same plan. -/
theorem claim_C9_witness : planOfEnv envSafeDelete = planOfEnv envOtherWorld :=
  claim_C9_plan_deterministic envSafeDelete envOtherWorld rfl rfl

/-- C10: no execution path of `process_video` removes the original input file
— the removal call is absent — and the deletion message is printed exactly
when the verdict is SafeToDelete, i.e. a successful validation prints the
deletion message even though nothing was deleted. -/
theorem claim_C10_never_removes (env : FileEnv) :
    (process_video env).inputRemoved = false
    ∧ (process_video env).printedDeleted
        = decide ((process_video env).verdict = some ValidationVerdict.SafeToDelete) := by
  rcases get_video_info_shape env.info with hnone | ⟨w, h, c, hsome⟩
  · simp [process_video, hnone]
  · by_cases hneeds : (needsConversionCheck w h c).1 = true
    · cases hco : convert_video env.bitrate env.gpu env.encodeSucceeds with
      | crashedValueError => simp [process_video, hsome, hneeds, hco]
      | encodeFailed => simp [process_video, hsome, hneeds, hco, decide_some_verdict]
      | encoded => simp [process_video, hsome, hneeds, hco, decide_some_verdict]
    · simp [process_video, hsome, hneeds]
